import Mathlib

/-!
Verification of the aumai-toolcanon canonicalization core.

This file shallowly embeds the format-detection / parsing / canonical-IR /
emission pipeline of the repository (`core.py`, `parsers/*.py`, `emitter.py`,
`store.py`) into Lean and proves properties stated about it.

Modelling conventions:
* JSON documents are the inductive `Json`; a Python `dict[str, Any]` is a
  `Jdoc := List (String × Json)` (insertion-ordered association list with
  unique keys, first-match lookup — Python dict semantics).
* JSON numbers are modelled as integers (no claim involves fractional
  numbers).
* Fallible Python code (code that can raise) is embedded in
  `Except String`; a `.error` value corresponds to a raised exception, the
  string standing in for the exception message.
* Python truthiness of a JSON value is `Json.truthy`; the `x or y` idiom on
  such values is `pyOr`.
* `str(x)` applied to a non-string JSON value is `pyStr`; for compound
  values (lists/dicts) the rendering is abbreviated — no claim inspects the
  converted text of a compound value, only whether conversion happens.
* The capability inferencer iterates Python *set* literals.  Membership
  tests (`any`) are order-independent; for the read-verb override loop,
  whose result depends on iteration order (the order of a Python set is not
  a stable contract), we fix the order in which the verbs are listed in the
  source literal, which is also the order the specification documents.
-/

inductive Json where
  | null : Json
  | bool : Bool → Json
  | num : Int → Json
  | str : String → Json
  | arr : List Json → Json
  | obj : List (String × Json) → Json
deriving Repr

/-- A Python `dict[str, Any]` holding JSON data: ordered key/value pairs. -/
abbrev Jdoc := List (String × Json)

/-- Python truthiness of a JSON value (`bool(x)`). -/
def Json.truthy : Json → Bool
  | .null => false
  | .bool b => b
  | .num n => n != 0
  | .str s => s != ""
  | .arr l => !l.isEmpty
  | .obj l => !l.isEmpty

/-- `d.get(k)` — `None` (here `Json.null`) when the key is absent. -/
def pyGet (d : Jdoc) (k : String) : Json :=
  (d.lookup k).getD .null

/-- `d.get(k, default)`. -/
def pyGetD (d : Jdoc) (k : String) (dflt : Json) : Json :=
  (d.lookup k).getD dflt

/-- `k in d` for a Python dict. -/
def hasK (d : Jdoc) (k : String) : Bool :=
  (d.lookup k).isSome

/-- Python `a or b` on JSON values: `a` when truthy, else `b`. -/
def pyOr (a b : Json) : Json :=
  if a.truthy then a else b

/-- Python `str(x)` on a JSON value.  Compound values are abbreviated
(no claim inspects the rendered text of a compound value). -/
def pyStr : Json → String
  | .null => "None"
  | .bool true => "True"
  | .bool false => "False"
  | .num n => toString n
  | .str s => s
  | .arr _ => "<list>"
  | .obj _ => "<dict>"

/-- Pydantic validation of a `str` field: succeeds only on a string
(lax mode does not coerce other JSON types to `str`). -/
def asStrE : Json → Except String String
  | .str s => .ok s
  | _ => .error "ValidationError: input should be a valid string"

/-- Pydantic validation of a `dict[str, Any]` field, and also the effect of
calling a `dict` method (`.get`) on a value: succeeds only on an object. -/
def asObjE : Json → Except String Jdoc
  | .obj fs => .ok fs
  | _ => .error "AttributeError: value is not a dict"

/-- `target.startsWith pat` on character lists. -/
def listStartsWith : List Char → List Char → Bool
  | [], _ => true
  | _ :: _, [] => false
  | p :: ps, c :: cs => p == c && listStartsWith ps cs

/-- `pat` occurs as a contiguous subsequence of the character list. -/
def listHasSub (pat : List Char) : List Char → Bool
  | [] => pat.isEmpty
  | c :: cs => listStartsWith pat (c :: cs) || listHasSub pat cs

/-- Python `pat in s` — substring containment. -/
def strHasSub (s pat : String) : Bool :=
  listHasSub pat.data s.data

/-- Python `s.lower()`, as a character-wise map (the text fed to the
capability inferencer is ASCII, where this agrees with Python). -/
def strToLower (s : String) : String :=
  ⟨s.data.map Char.toLower⟩

/-- The closed enumeration of supported source formats (`SourceFormat`). -/
inductive SourceFormat where
  | openai
  | anthropic
  | mcp
  | langchain
  | raw
deriving Repr, DecidableEq

/-- The lowercase string tag of a format (`SourceFormat.value` in Python,
a `str`-valued enum). -/
def SourceFormat.value : SourceFormat → String
  | .openai => "openai"
  | .anthropic => "anthropic"
  | .mcp => "mcp"
  | .langchain => "langchain"
  | .raw => "raw"

/-- `ToolCapability` — semantic capability metadata (models.py). -/
structure ToolCapability where
  action : String := ""
  domain : String := ""
  side_effects : Bool := false
  idempotent : Bool := true
  cost_estimate : String := "unknown"
deriving Repr, DecidableEq

/-- `ToolSecurity` — security and data handling metadata (models.py). -/
structure ToolSecurity where
  required_permissions : List String := []
  data_classification : String := "public"
  pii_handling : String := "none"
deriving Repr, DecidableEq

/-- `CanonicalTool` — the canonical IR (models.py).  The `inputs`,
`outputs` and `original_definition` fields are dicts (pydantic validates
them as `dict[str, Any]`), hence `Jdoc` here. -/
structure CanonicalTool where
  name : String
  version : String := "1.0.0"
  description : String := ""
  capabilities : ToolCapability := {}
  inputs : Jdoc := []
  outputs : Jdoc := []
  security : Option ToolSecurity := none
  source_format : SourceFormat := .raw
  original_definition : Jdoc := []
deriving Repr

/-- `CanonicalizationResult` (models.py). -/
structure CanonicalizationResult where
  tool : CanonicalTool
  warnings : List String
  source_format_detected : SourceFormat
deriving Repr

/-- Side-effect verb set of `_infer_capabilities` (openai.py), in source
literal order; it is only ever used through order-independent `any`. -/
def side_effect_verbs : List String :=
  ["write", "create", "delete", "update", "post", "send", "save", "remove"]

/-- Read verb set of `_infer_capabilities` (openai.py), in source literal
order.  The Python source iterates a set here; iteration order is fixed to
the literal order, which the specification documents as the canonical
tie-break order. -/
def read_verbs : List String :=
  ["read", "get", "fetch", "list", "search", "query", "find"]

/-- Keyword → domain table of `_infer_capabilities` (openai.py); a Python
dict literal, hence insertion-ordered, first match wins. -/
def domain_map : List (String × String) :=
  [("file", "filesystem"), ("web", "web"), ("search", "web"),
   ("database", "database"), ("sql", "database"), ("code", "code"),
   ("email", "email"), ("http", "web"), ("api", "web")]

/-- The `for verb in read_verbs: if verb in text: action = verb; break`
loop: first verb of the list contained in `text`. -/
def firstVerbIn (text : String) : List String → Option String
  | [] => none
  | v :: rest => if strHasSub text v then some v else firstVerbIn text rest

/-- The domain loop: first key of the table contained in `text` selects
its domain. -/
def firstDomainIn (text : String) : List (String × String) → Option String
  | [] => none
  | (k, dom) :: rest => if strHasSub text k then some dom else firstDomainIn text rest

/-- `_infer_capabilities(name, description)` (openai.py): heuristic
capability inference over the lower-cased text `name + " " + description`. -/
def infer_capabilities (name description : String) : ToolCapability :=
  let text := strToLower (name ++ " " ++ description)
  let has_side_effects := side_effect_verbs.any (fun v => strHasSub text v)
  let action :=
    match firstVerbIn text read_verbs with
    | some v => v
    | none => if has_side_effects then "write" else "read"
  let domain := (firstDomainIn text domain_map).getD "general"
  { action := action
    domain := domain
    side_effects := has_side_effects
    idempotent := !has_side_effects
    cost_estimate := "unknown" }

namespace OpenAIParser

/-- `OpenAIParser.can_parse` (openai.py). -/
def can_parse (tool_def : Jdoc) : Bool :=
  ((match pyGet tool_def "type" with | .str s => s == "function" | _ => false)
      && hasK tool_def "function")
    || (hasK tool_def "name" && hasK tool_def "parameters")

/-- `OpenAIParser.parse` (openai.py).  Raises (returns `.error`) exactly
where the Python raises: unwrapping a non-dict `function` value, running
capability inference / pydantic validation on a non-string name or
description, or validating a non-dict `parameters` value. -/
def parse (tool_def : Jdoc) : Except String CanonicalTool := do
  let func ←
    if (match pyGet tool_def "type" with | .str s => s == "function" | _ => false)
        && hasK tool_def "function" then
      asObjE (pyGet tool_def "function")
    else
      .ok tool_def
  let name ← asStrE (pyGetD func "name" (.str ""))
  let description ← asStrE (pyGetD func "description" (.str ""))
  let parameters ← asObjE (pyGetD func "parameters" (.obj []))
  .ok { name := name
        description := description
        capabilities := infer_capabilities name description
        inputs := parameters
        outputs := []
        security := none
        source_format := .openai
        original_definition := tool_def }

end OpenAIParser

namespace AnthropicParser

/-- `AnthropicParser.can_parse` (anthropic.py). -/
def can_parse (tool_def : Jdoc) : Bool :=
  hasK tool_def "input_schema" && hasK tool_def "name"

/-- `AnthropicParser.parse` (anthropic.py). -/
def parse (tool_def : Jdoc) : Except String CanonicalTool := do
  let name ← asStrE (pyGetD tool_def "name" (.str ""))
  let description ← asStrE (pyGetD tool_def "description" (.str ""))
  let input_schema ← asObjE (pyGetD tool_def "input_schema" (.obj []))
  .ok { name := name
        description := description
        capabilities := infer_capabilities name description
        inputs := input_schema
        outputs := []
        security := none
        source_format := .anthropic
        original_definition := tool_def }

end AnthropicParser

namespace MCPParser

/-- `MCPParser.can_parse` (mcp.py). -/
def can_parse (tool_def : Jdoc) : Bool :=
  (hasK tool_def "inputSchema" || hasK tool_def "input_schema")
    && hasK tool_def "name"

/-- `MCPParser.parse` (mcp.py): `inputSchema` preferred, falling back to
`input_schema` only when the camelCase key is absent. -/
def parse (tool_def : Jdoc) : Except String CanonicalTool := do
  let name ← asStrE (pyGetD tool_def "name" (.str ""))
  let description ← asStrE (pyGetD tool_def "description" (.str ""))
  let input_schema ← asObjE
    (pyGetD tool_def "inputSchema" (pyGetD tool_def "input_schema" (.obj [])))
  .ok { name := name
        description := description
        capabilities := infer_capabilities name description
        inputs := input_schema
        outputs := []
        security := none
        source_format := .mcp
        original_definition := tool_def }

end MCPParser

namespace LangChainParser

/-- `LangChainParser.can_parse` (langchain.py). -/
def can_parse (tool_def : Jdoc) : Bool :=
  hasK tool_def "args_schema" || hasK tool_def "schema"
    || (hasK tool_def "name" && hasK tool_def "description"
        && hasK tool_def "properties")

/-- The `model_fields` loop of `_extract_schema` (langchain.py): each field
becomes a `{"type": "string"}` property, collected into `required` when its
`is_required` flag (default `True`) is truthy.  A non-dict field info
raises. -/
def modelFieldsExtract : List (String × Json) → Except String (Jdoc × List Json)
  | [] => .ok ([], [])
  | (field_name, field_info) :: rest => do
    let fi ← asObjE field_info
    let flag := pyGetD fi "is_required" (.bool true)
    let (props, req) ← modelFieldsExtract rest
    .ok ((field_name, Json.obj [("type", .str "string")]) :: props,
         if flag.truthy then .str field_name :: req else req)

/-- `LangChainParser._extract_schema` (langchain.py).  Called on an
arbitrary value; calling dict methods on a non-dict raises. -/
def extract_schema (schema : Json) : Except String Json := do
  let fs ← asObjE schema
  if (match pyGet fs "type" with | .str s => s == "object" | _ => false)
      || hasK fs "properties" then
    .ok (.obj [("type", .str "object"),
               ("properties", pyGetD fs "properties" (.obj [])),
               ("required", pyGetD fs "required" (.arr []))])
  else
    match fs.lookup "model_fields" with
    | some mf => do
      let fields ← asObjE mf
      let (properties, required) ← modelFieldsExtract fields
      .ok (.obj [("type", .str "object"),
                 ("properties", .obj properties),
                 ("required", .arr required)])
    | none => .ok (.obj fs)

/-- `LangChainParser.parse` (langchain.py). -/
def parse (tool_def : Jdoc) : Except String CanonicalTool := do
  let nameJ := pyGetD tool_def "name" (pyGetD tool_def "title" (.str ""))
  let descriptionJ := pyGetD tool_def "description" (.str "")
  let inputsJ ←
    if hasK tool_def "args_schema" then
      extract_schema (pyGet tool_def "args_schema")
    else if hasK tool_def "schema" then
      extract_schema (pyGet tool_def "schema")
    else if hasK tool_def "parameters" then
      .ok (pyGet tool_def "parameters")
    else if hasK tool_def "properties" then
      .ok (.obj [("type", .str "object"),
                 ("properties", pyGet tool_def "properties"),
                 ("required", pyGetD tool_def "required" (.arr []))])
    else
      .ok (.obj [])
  let name ← asStrE nameJ
  let description ← asStrE descriptionJ
  let inputs ← asObjE inputsJ
  .ok { name := name
        description := description
        capabilities := infer_capabilities name description
        inputs := inputs
        outputs := []
        security := none
        source_format := .langchain
        original_definition := tool_def }

end LangChainParser

/-- The ordered parser list held by `FormatDetector.__init__` (core.py):
fixed priority order openai, anthropic, mcp, langchain. -/
def detectorParsers : List (SourceFormat × (Jdoc → Bool)) :=
  [(.openai, OpenAIParser.can_parse),
   (.anthropic, AnthropicParser.can_parse),
   (.mcp, MCPParser.can_parse),
   (.langchain, LangChainParser.can_parse)]

/-- The loop body of `FormatDetector.detect`: first parser whose
`can_parse` accepts the document wins. -/
def detectLoop (doc : Jdoc) : List (SourceFormat × (Jdoc → Bool)) → SourceFormat
  | [] => .raw
  | (fmt, canp) :: rest => if canp doc then fmt else detectLoop doc rest

namespace FormatDetector

/-- `FormatDetector.detect` (core.py). -/
def detect (doc : Jdoc) : SourceFormat :=
  detectLoop doc detectorParsers

end FormatDetector

/-- The parser dictionary held by `Canonicalizer.__init__` (core.py):
`None` for `raw`. -/
def parserFor : SourceFormat → Option (Jdoc → Except String CanonicalTool)
  | .openai => some OpenAIParser.parse
  | .anthropic => some AnthropicParser.parse
  | .mcp => some MCPParser.parse
  | .langchain => some LangChainParser.parse
  | .raw => none

/-- The format resolved in step 1 of `Canonicalizer.canonicalize`: the
explicit override when given, else the detection result. -/
def resolvedFormat (doc : Jdoc) : Option SourceFormat → SourceFormat
  | none => FormatDetector.detect doc
  | some f => f

def warnNoDetect : String :=
  "Could not detect source format; using raw passthrough."

def warnNoRawParser : String :=
  "No parser for 'raw' format; extracted fields by heuristic."

def warnParserError (fmt : SourceFormat) (msg : String) : String :=
  "Parser error for " ++ fmt.value ++ ": " ++ msg

def warnNoName : String :=
  "Tool has no name — consider adding one."

def warnNoDescription : String :=
  "Tool has no description — consider adding one."

namespace Canonicalizer

/-- The name extraction of `Canonicalizer._raw_canonicalize` (core.py):
`tool_def.get("name") or tool_def.get("title") or
tool_def.get("function", {}).get("name", "")`.  The third operand is only
evaluated when the first two are falsy, and raises when the value under
`"function"` is not a dict. -/
def rawName (tool_def : Jdoc) : Except String Json :=
  let n := pyGet tool_def "name"
  if n.truthy then .ok n
  else
    let t := pyGet tool_def "title"
    if t.truthy then .ok t
    else
      match tool_def.lookup "function" with
      | none => .ok (.str "")
      | some v => do
        let fs ← asObjE v
        .ok (pyGetD fs "name" (.str ""))

/-- The inputs extraction of `Canonicalizer._raw_canonicalize` (core.py):
first truthy of `parameters`, `input_schema`, `inputSchema`, `schema`,
else `{}`. -/
def rawInputs (tool_def : Jdoc) : Json :=
  pyOr (pyGet tool_def "parameters")
    (pyOr (pyGet tool_def "input_schema")
      (pyOr (pyGet tool_def "inputSchema")
        (pyOr (pyGet tool_def "schema") (.obj []))))

/-- `Canonicalizer._raw_canonicalize` (core.py): best-effort extraction
from an unknown format.  Raises (returns `.error`) exactly where the
Python raises: a non-dict value under `"function"` reached by the name
fallback chain, or a truthy non-dict parameters-like value rejected by
pydantic validation of `inputs`. -/
def raw_canonicalize (tool_def : Jdoc) : Except String CanonicalTool := do
  let nameJ ← rawName tool_def
  let inputs ← asObjE (rawInputs tool_def)
  .ok { name := pyStr nameJ
        description := pyStr (pyGetD tool_def "description" (.str ""))
        capabilities := {}
        inputs := inputs
        outputs := []
        security := none
        source_format := .raw
        original_definition := tool_def }

/-- `Canonicalizer.canonicalize` (core.py): resolve the format, dispatch
to the matching parser, catch any parser failure and fall back to raw
extraction with a warning, attach post-hoc name/description warnings.
A `.error` result models an exception escaping to the caller (which can
only originate in `raw_canonicalize`). -/
def canonicalize (tool_def : Jdoc)
    (source_format : Option SourceFormat := none) :
    Except String CanonicalizationResult :=
  let detected := resolvedFormat tool_def source_format
  let warnings0 : List String :=
    match source_format with
    | none =>
      if FormatDetector.detect tool_def = SourceFormat.raw then [warnNoDetect]
      else []
    | some _ => []
  let step : Except String (CanonicalTool × List String) :=
    match parserFor detected with
    | none =>
      (raw_canonicalize tool_def).map (fun t => (t, warnings0 ++ [warnNoRawParser]))
    | some p =>
      match p tool_def with
      | .ok t => .ok (t, warnings0)
      | .error e =>
        (raw_canonicalize tool_def).map
          (fun t => (t, warnings0 ++ [warnParserError detected e]))
  step.map (fun (t, ws) =>
    let ws := ws ++ (if t.name = "" then [warnNoName] else [])
    let ws := ws ++ (if t.description = "" then [warnNoDescription] else [])
    { tool := t, warnings := ws, source_format_detected := detected })

end Canonicalizer

/-- The shared input-schema normalization of the openai/anthropic/mcp
emitters (emitter.py): `tool.inputs or {"type": "object", "properties":
{}}`, then prepend `"type": "object"` when no `type` key exists. -/
def normalizeSchema (inputs : Jdoc) : Jdoc :=
  let s := if inputs.isEmpty then
      [("type", Json.str "object"), ("properties", Json.obj [])]
    else inputs
  if (s.lookup "type").isSome then s else ("type", Json.str "object") :: s

/-- `emit_openai` (emitter.py). -/
def emit_openai (tool : CanonicalTool) : Jdoc :=
  [("type", .str "function"),
   ("function", .obj
     [("name", .str tool.name),
      ("description", .str tool.description),
      ("parameters", .obj (normalizeSchema tool.inputs))])]

/-- `emit_anthropic` (emitter.py). -/
def emit_anthropic (tool : CanonicalTool) : Jdoc :=
  [("name", .str tool.name),
   ("description", .str tool.description),
   ("input_schema", .obj (normalizeSchema tool.inputs))]

/-- `emit_mcp` (emitter.py). -/
def emit_mcp (tool : CanonicalTool) : Jdoc :=
  [("name", .str tool.name),
   ("description", .str tool.description),
   ("inputSchema", .obj (normalizeSchema tool.inputs))]

/-- The deterministic fields of `StoredTool` (store.py).  The runtime
generated `id` (UUID) and `created_at` (wall-clock timestamp) fields and
the `canonical_json` serialization string are outside the scope of the
properties stated here and are not modelled. -/
structure StoredTool where
  name : String
  source_format : String
  capabilities : List String
  security_tags : List String
  pii_tags : List String
deriving Repr, DecidableEq

namespace StoredTool

/-- `StoredTool.from_canonical_tool` (store.py) with no extra tags:
derives capability, security and PII tag lists from the tool. -/
def from_canonical_tool (tool : CanonicalTool) : StoredTool :=
  let capabilities :=
    (if tool.capabilities.action ≠ "" then [tool.capabilities.action] else [])
      ++ (if tool.capabilities.domain ≠ "" then [tool.capabilities.domain] else [])
      ++ (if tool.capabilities.side_effects then ["side_effects"] else [])
  let security_tags :=
    match tool.security with
    | none => []
    | some sec =>
      sec.required_permissions
        ++ (if sec.data_classification ≠ "public" ∧ sec.data_classification ≠ ""
            then [sec.data_classification] else [])
  let pii_tags :=
    match tool.security with
    | none => []
    | some sec =>
      if sec.pii_handling ≠ "none" ∧ sec.pii_handling ≠ ""
      then [sec.pii_handling] else []
  { name := tool.name
    source_format := tool.source_format.value
    capabilities := capabilities
    security_tags := security_tags
    pii_tags := pii_tags }

end StoredTool

/-- `(parserFor fmt)` applied to a document: `some` of the parse outcome
when a parser exists for the format, `none` for `raw`. -/
def applyParser (fmt : SourceFormat) (doc : Jdoc) :
    Option (Except String CanonicalTool) :=
  (parserFor fmt).map (fun p => p doc)

/-- The emitter targeting a supported source format. -/
def emitFor : SourceFormat → Option (CanonicalTool → Jdoc)
  | .openai => some emit_openai
  | .anthropic => some emit_anthropic
  | .mcp => some emit_mcp
  | _ => none

/-- The key set (as an ordered list) of the `properties` object inside a
JSON-schema-shaped dict; empty when `properties` is absent or not an
object. -/
def propKeys (schema : Jdoc) : List String :=
  match schema.lookup "properties" with
  | some (.obj ps) => ps.map Prod.fst
  | _ => []

/-- Where a tool's name lives in an emitted document of the given format
(inside the `function` wrapper for openai, top level otherwise). -/
def emittedName : SourceFormat → Jdoc → Option Json
  | .openai, d =>
    match d.lookup "function" with
    | some (.obj fs) => fs.lookup "name"
    | _ => none
  | _, d => d.lookup "name"

/-- Where a tool's description lives in an emitted document. -/
def emittedDescription : SourceFormat → Jdoc → Option Json
  | .openai, d =>
    match d.lookup "function" with
    | some (.obj fs) => fs.lookup "description"
    | _ => none
  | _, d => d.lookup "description"

/-- The input-schema object of an emitted document (`function.parameters`
for openai, `input_schema` for anthropic, `inputSchema` for mcp). -/
def emittedSchema : SourceFormat → Jdoc → Option Json
  | .openai, d =>
    match d.lookup "function" with
    | some (.obj fs) => fs.lookup "parameters"
    | _ => none
  | .anthropic, d => d.lookup "input_schema"
  | .mcp, d => d.lookup "inputSchema"
  | _, _ => none

/-- Property keys of the input schema of an emitted document. -/
def emittedPropKeys (fmt : SourceFormat) (d : Jdoc) : List String :=
  match emittedSchema fmt d with
  | some (.obj fs) => propKeys fs
  | _ => []

/-- The `parameters` object of the search_web scenario document. -/
def searchWebParams : Jdoc :=
  [("type", .str "object"),
   ("properties", .obj [("query", .obj [("type", .str "string")])]),
   ("required", .arr [.str "query"])]

/-- The wrapped OpenAI search_web scenario document from the spec. -/
def searchWebDoc : Jdoc :=
  [("type", .str "function"),
   ("function", .obj
     [("name", .str "search_web"),
      ("description", .str "Search the web"),
      ("parameters", .obj searchWebParams)])]

/-- The canonical tool produced by parsing `searchWebDoc`. -/
def searchWebTool : CanonicalTool :=
  { name := "search_web"
    description := "Search the web"
    capabilities :=
      { action := "search", domain := "web", side_effects := false,
        idempotent := true, cost_estimate := "unknown" }
    inputs := searchWebParams
    outputs := []
    security := none
    source_format := .openai
    original_definition := searchWebDoc }

/-- A top-level JSON object whose `function` key holds a number: the name
fallback chain of raw extraction calls a dict method on it and raises. -/
def badFunctionDoc : Jdoc := [("function", Json.num 5)]

/-- A document satisfying the OpenAI, Anthropic and MCP `can_parse`
predicates at once. -/
def ambiguousDoc : Jdoc :=
  [("name", .str "x"), ("parameters", .obj []), ("input_schema", .obj [])]

/-- A document satisfying the Anthropic (and hence MCP) predicate but not
the OpenAI one. -/
def anthropicOnlyDoc : Jdoc :=
  [("name", .str "calc"), ("input_schema", .obj [])]

/-- A wrapped OpenAI document whose `function` value is a number: the
OpenAI parser raises on it, while raw extraction succeeds through the
top-level `name`. -/
def brokenOpenAIDoc : Jdoc :=
  [("type", .str "function"), ("function", .num 5), ("name", .str "x")]

theorem raw_canonicalize_source_format (doc : Jdoc) (t : CanonicalTool)
    (h : Canonicalizer.raw_canonicalize doc = Except.ok t) :
    t.source_format = SourceFormat.raw := by
  unfold Canonicalizer.raw_canonicalize at h
  rcases hn : Canonicalizer.rawName doc with e | nj <;> rw [hn] at h
  · cases h
  · rcases hi : asObjE (Canonicalizer.rawInputs doc) with e | fs <;> rw [hi] at h
    · cases h
    · cases h
      rfl

/-- C1 (corrected): `canonicalize` is not total — on `{"function": 5}`
format detection yields `raw` and raw extraction itself raises while
dereferencing the non-dict `function` value, so the exception escapes to
the caller. -/
theorem c1_counterexample :
    (Canonicalizer.canonicalize badFunctionDoc none).isOk = false := rfl

/-- C1 (amended): parser failures never escape: `canonicalize` returns a
result for every document (and format override) on which the raw
extractor itself succeeds; only a failure of raw extraction can propagate
to the caller. -/
theorem c1_total_when_raw_extraction_succeeds (doc : Jdoc)
    (fmtOpt : Option SourceFormat)
    (h : (Canonicalizer.raw_canonicalize doc).isOk = true) :
    (Canonicalizer.canonicalize doc fmtOpt).isOk = true := by
  rcases hr : Canonicalizer.raw_canonicalize doc with e | t
  · rw [hr] at h
    cases h
  · unfold Canonicalizer.canonicalize
    rcases hp : parserFor (resolvedFormat doc fmtOpt) with _ | p
    · simp [hp, hr, Except.map, Except.isOk, Except.toBool]
    · rcases hpd : p doc with e | t'
      · simp [hp, hpd, hr, Except.map, Except.isOk, Except.toBool]
      · simp [hp, hpd, Except.map, Except.isOk, Except.toBool]

/-- Witness for the amended C1 at the empty document. -/
theorem c1_witness :
    (Canonicalizer.canonicalize ([] : Jdoc) none).isOk = true :=
  c1_total_when_raw_extraction_succeeds [] none rfl

/-- C2 (corrected, counterexample): a document can satisfy both the
Anthropic and the MCP `can_parse` predicates and still not detect as
`anthropic`, because it also satisfies the OpenAI predicate, which is
checked first. -/
theorem c2_counterexample :
    AnthropicParser.can_parse ambiguousDoc = true ∧
    MCPParser.can_parse ambiguousDoc = true ∧
    FormatDetector.detect ambiguousDoc = SourceFormat.openai :=
  ⟨rfl, rfl, rfl⟩

/-- C2 (amended): `detect` returns the format of the first parser in the
fixed order openai, anthropic, mcp, langchain whose `can_parse` accepts
the document, `raw` when none does; a document satisfying both the
Anthropic and MCP predicates while failing the OpenAI one detects as
`anthropic`. -/
theorem c2_detection_priority (doc : Jdoc) :
    (FormatDetector.detect doc =
      (if OpenAIParser.can_parse doc then SourceFormat.openai
       else if AnthropicParser.can_parse doc then SourceFormat.anthropic
       else if MCPParser.can_parse doc then SourceFormat.mcp
       else if LangChainParser.can_parse doc then SourceFormat.langchain
       else SourceFormat.raw)) ∧
    (AnthropicParser.can_parse doc = true → MCPParser.can_parse doc = true →
      OpenAIParser.can_parse doc = false →
      FormatDetector.detect doc = SourceFormat.anthropic) := by
  constructor
  · rfl
  · intro ha _ ho
    simp [FormatDetector.detect, detectorParsers, detectLoop, ho, ha]

/-- Witness for the amended C2 on a document recognized by the Anthropic
and MCP predicates only. -/
theorem c2_witness :
    FormatDetector.detect anthropicOnlyDoc = SourceFormat.anthropic :=
  (c2_detection_priority anthropicOnlyDoc).2 rfl rfl rfl

/-- C3 (corrected, counterexample): `canonicalize({})` yields four
warnings, not three — the undetected-format warning and the heuristic
raw-extraction warning are appended separately. -/
theorem c3_counterexample :
    (Canonicalizer.canonicalize ([] : Jdoc) none).map
        (fun r => r.warnings.length) = Except.ok 4 := rfl

/-- C3 (amended): `detect({})` returns `raw`, and `canonicalize({})`
yields a tool with empty name together with exactly four warnings: the
undetected-format warning, the heuristic raw-extraction warning, the
missing-name warning and the missing-description warning. -/
theorem c3_empty_document :
    FormatDetector.detect ([] : Jdoc) = SourceFormat.raw ∧
    (Canonicalizer.canonicalize ([] : Jdoc) none).map
        (fun r => (r.tool.name, r.warnings)) =
      Except.ok ("", [warnNoDetect, warnNoRawParser, warnNoName,
                      warnNoDescription]) :=
  ⟨rfl, rfl⟩

/-- C7: the search_web scenario — detection yields `openai`, the
canonicalized tool carries domain `web`, action `search`, no side
effects, and `emit_mcp` reproduces the expected MCP document. -/
theorem c7_search_web_scenario :
    FormatDetector.detect searchWebDoc = SourceFormat.openai ∧
    (Canonicalizer.canonicalize searchWebDoc none).map
        (fun r => (r.tool.capabilities.domain, r.tool.capabilities.action,
                   r.tool.capabilities.side_effects)) =
      Except.ok ("web", "search", false) ∧
    (Canonicalizer.canonicalize searchWebDoc none).map
        (fun r => emit_mcp r.tool) =
      Except.ok [("name", Json.str "search_web"),
                 ("description", Json.str "Search the web"),
                 ("inputSchema", Json.obj
                   [("type", Json.str "object"),
                    ("properties", Json.obj
                      [("query", Json.obj [("type", Json.str "string")])]),
                    ("required", Json.arr [Json.str "query"])])] :=
  ⟨rfl, rfl, rfl⟩

/-- C5: whenever the resolved format has a parser and that parser fails
(and raw extraction can produce a tool at all), the returned result still
records the resolved format in `source_format_detected` while the tool's
own `source_format` is forced to `raw`. -/
theorem c5_format_divergence (doc : Jdoc) (fmtOpt : Option SourceFormat)
    (p : Jdoc → Except String CanonicalTool)
    (hp : parserFor (resolvedFormat doc fmtOpt) = some p)
    (herr : (p doc).isOk = false)
    (hraw : (Canonicalizer.raw_canonicalize doc).isOk = true) :
    (Canonicalizer.canonicalize doc fmtOpt).map
        (fun r => (r.source_format_detected, r.tool.source_format)) =
      Except.ok (resolvedFormat doc fmtOpt, SourceFormat.raw) := by
  rcases hr : Canonicalizer.raw_canonicalize doc with e | t
  · rw [hr] at hraw
    cases hraw
  · rcases hpd : p doc with e | t'
    · have hsf : t.source_format = SourceFormat.raw :=
        raw_canonicalize_source_format doc t hr
      unfold Canonicalizer.canonicalize
      simp [hp, hpd, hr, hsf, Except.map]
    · rw [hpd] at herr
      cases herr

/-- Witness for C5: wrapped OpenAI document with a numeric `function`
value — detection resolves `openai`, the parser raises, raw extraction
succeeds, and the two format fields disagree as claimed. -/
theorem c5_witness :
    (Canonicalizer.canonicalize brokenOpenAIDoc none).map
        (fun r => (r.source_format_detected, r.tool.source_format)) =
      Except.ok (SourceFormat.openai, SourceFormat.raw) :=
  c5_format_divergence brokenOpenAIDoc none OpenAIParser.parse rfl rfl rfl

/-- C6: a document recognized by a parser (non-raw detection) whose parse
succeeds with non-empty name and description canonicalizes with an empty
warning list. -/
theorem c6_no_warnings (doc : Jdoc) (t : CanonicalTool)
    (hp : applyParser (FormatDetector.detect doc) doc = some (Except.ok t))
    (hn : t.name ≠ "") (hd : t.description ≠ "") :
    (Canonicalizer.canonicalize doc none).map (fun r => r.warnings) =
      Except.ok ([] : List String) := by
  have hnraw : FormatDetector.detect doc ≠ SourceFormat.raw := by
    intro h
    rw [h] at hp
    cases hp
  rcases hpf : parserFor (FormatDetector.detect doc) with _ | p
  · rw [applyParser, hpf] at hp
    cases hp
  · rw [applyParser, hpf] at hp
    have hpd : p doc = Except.ok t := by
      simpa using hp
    unfold Canonicalizer.canonicalize
    simp [resolvedFormat, hpf, hpd, hnraw, hn, hd, Except.map]

/-- Witness for C6 at the search_web scenario document. -/
theorem c6_witness :
    (Canonicalizer.canonicalize searchWebDoc none).map (fun r => r.warnings) =
      Except.ok ([] : List String) :=
  c6_no_warnings searchWebDoc searchWebTool rfl (by decide) (by decide)

theorem firstVerbIn_eq_find (text : String) (l : List String) :
    firstVerbIn text l = l.find? (fun v => strHasSub text v) := by
  induction l with
  | nil => rfl
  | cons v rest ih =>
    by_cases h : strHasSub text v
    · simp [firstVerbIn, List.find?, h]
    · simp [firstVerbIn, List.find?, h, ih]

/-- C4: the inferred action is the first read verb (in the listed order
read, get, fetch, list, search, query, find) occurring as a substring of
the lower-cased `name + " " + description`, even when a side-effect verb
is present; with no read verb it is `"write"` exactly when a side-effect
verb occurs and `"read"` otherwise. -/
theorem c4_read_verb_override (name description : String) :
    (infer_capabilities name description).action =
      (match ["read", "get", "fetch", "list", "search", "query", "find"].find?
          (fun v => strHasSub (strToLower (name ++ " " ++ description)) v) with
       | some v => v
       | none =>
         if ["write", "create", "delete", "update", "post", "send", "save",
             "remove"].any
             (fun v => strHasSub (strToLower (name ++ " " ++ description)) v)
         then "write" else "read") := by
  unfold infer_capabilities
  simp only [firstVerbIn_eq_find]
  rfl

theorem lookup_cons_ne {v : Json} {l : Jdoc} (k k' : String) (h : (k' == k) = false) :
    ((k, v) :: l).lookup k' = l.lookup k' := by
  simp [List.lookup, h]

theorem propKeys_normalizeSchema (inputs : Jdoc) :
    propKeys (normalizeSchema inputs) = propKeys inputs := by
  unfold normalizeSchema
  cases inputs with
  | nil => rfl
  | cons hd tl =>
    simp only [List.isEmpty_cons, if_neg]
    by_cases ht : ((hd :: tl).lookup "type").isSome
    · simp [ht]
    · simp only [ht, if_false, Bool.false_eq_true, if_neg]
      unfold propKeys
      rw [lookup_cons_ne "type" "properties" rfl]

/-- C8: canonicalizing a document detected as one of the supported
formats openai/anthropic/mcp and emitting the resulting tool back to that
format yields a document carrying the tool's name, its description, and
exactly the property keys of the tool's input schema. -/
theorem c8_emission_preserves (doc : Jdoc) (fmt : SourceFormat)
    (r : CanonicalizationResult) (emit : CanonicalTool → Jdoc)
    (hfmt : fmt = SourceFormat.openai ∨ fmt = SourceFormat.anthropic ∨
      fmt = SourceFormat.mcp)
    (hdet : FormatDetector.detect doc = fmt)
    (hok : Canonicalizer.canonicalize doc none = Except.ok r)
    (hemit : emitFor fmt = some emit) :
    emittedName fmt (emit r.tool) = some (Json.str r.tool.name) ∧
    emittedDescription fmt (emit r.tool) = some (Json.str r.tool.description) ∧
    emittedPropKeys fmt (emit r.tool) = propKeys r.tool.inputs := by
  rcases hfmt with rfl | rfl | rfl <;>
    (rw [emitFor] at hemit; injection hemit with he; subst he) <;>
    refine ⟨rfl, rfl, ?_⟩ <;>
    show propKeys (normalizeSchema r.tool.inputs) = propKeys r.tool.inputs <;>
    exact propKeys_normalizeSchema r.tool.inputs

/-- Witness for C8 at the search_web scenario document (openai). -/
theorem c8_witness :
    emittedName SourceFormat.openai (emit_openai searchWebTool) =
      some (Json.str "search_web") ∧
    emittedDescription SourceFormat.openai (emit_openai searchWebTool) =
      some (Json.str "Search the web") ∧
    emittedPropKeys SourceFormat.openai (emit_openai searchWebTool) =
      ["query"] :=
  c8_emission_preserves searchWebDoc SourceFormat.openai
    { tool := searchWebTool, warnings := [],
      source_format_detected := SourceFormat.openai }
    emit_openai (Or.inl rfl) rfl rfl rfl

/-- C9: the persistence tag derivation of `StoredTool.from_canonical_tool`
(no extras): capabilities are the non-empty values among action and domain
plus `"side_effects"` when flagged; security tags are the required
permissions plus a non-public, non-empty data classification; PII tags
hold a pii_handling value other than `"none"` and `""`; all empty without
security metadata. -/
theorem c9_stored_tool_tags (t : CanonicalTool) :
    (StoredTool.from_canonical_tool t).capabilities =
      ([t.capabilities.action, t.capabilities.domain].filter (fun s => s ≠ ""))
        ++ (if t.capabilities.side_effects then ["side_effects"] else []) ∧
    (StoredTool.from_canonical_tool t).security_tags =
      (match t.security with
       | none => []
       | some sec =>
         sec.required_permissions ++
           (if sec.data_classification ≠ "public" ∧ sec.data_classification ≠ ""
            then [sec.data_classification] else [])) ∧
    (StoredTool.from_canonical_tool t).pii_tags =
      (match t.security with
       | none => []
       | some sec =>
         if sec.pii_handling ≠ "none" ∧ sec.pii_handling ≠ ""
         then [sec.pii_handling] else []) := by
  refine ⟨?_, rfl, rfl⟩
  unfold StoredTool.from_canonical_tool
  by_cases ha : t.capabilities.action = "" <;>
    by_cases hd : t.capabilities.domain = "" <;>
    simp [ha, hd, List.filter]

/-- C10: emitted documents re-detect as their own format: the outputs of
`emit_openai`, `emit_anthropic` and `emit_mcp` pass exactly the intended
parser's detection under the priority order, for every canonical tool. -/
theorem c10_emitted_redetect (t : CanonicalTool) :
    FormatDetector.detect (emit_openai t) = SourceFormat.openai ∧
    FormatDetector.detect (emit_anthropic t) = SourceFormat.anthropic ∧
    FormatDetector.detect (emit_mcp t) = SourceFormat.mcp :=
  ⟨rfl, rfl, rfl⟩
